import Mathlib

/-!
Verification of the moleXa API selective analytics pipeline
(analytics-db.js and the fallback analytics in index.js):
the request classifier, the bounded in-memory event store,
privacy hashing, monthly bucketing and the archival routine,
shallowly embedded in Lean.
-/

namespace Molexa

/-- JavaScript `hay.includes(pat)` (substring containment) over char lists. -/
def jsIncludesL (hay pat : List Char) : Bool :=
  match hay with
  | [] => pat.isEmpty
  | c :: t => pat.isPrefixOf (c :: t) || jsIncludesL t pat

/-- JavaScript `hay.includes(pat)` on strings. -/
def includes (hay pat : String) : Bool :=
  jsIncludesL hay.data pat.data

/-- JavaScript `s.substring(0, n)`: the first `n` code units of `s`. -/
def jsSubstringTo (s : String) (n : Nat) : String :=
  String.mk (s.data.take n)

/-- The allow-list of trackable URL patterns (analytics-db.js, shouldTrackRequest). -/
def trackablePatterns : List String :=
  ["/api/pubchem/", "/api/pugview/", "/api/autocomplete/"]

/-- The exclude-list of documentation / meta URL patterns (analytics-db.js, shouldTrackRequest). -/
def excludePatterns : List String :=
  ["/api/docs", "/api/analytics", "/api/health", "/api/dashboard", "/api/json/docs"]

/-- Function `shouldTrackRequest(url, method)` from analytics-db.js: the exclude-list is
checked first; the `method` parameter is received but never read. -/
def shouldTrackRequest (url method : String) : Bool :=
  if excludePatterns.any (fun pattern => includes url pattern) then false
  else trackablePatterns.any (fun pattern => includes url pattern)

/-- Function `shouldTrackRequest` from the fallback analytics in index.js
(same patterns, same order, method likewise unread). -/
def fallbackShouldTrackRequest (url method : String) : Bool :=
  if excludePatterns.any (fun pattern => includes url pattern) then false
  else trackablePatterns.any (fun pattern => includes url pattern)

/-- Function `categorizeRequest(url)` from analytics-db.js: an ordered chain of
`url.includes` checks, first match wins. -/
def categorizeRequest (url : String) : String :=
  if includes url "/educational" then "Educational Overview"
  else if includes url "/safety" then "Safety Data"
  else if includes url "/pharmacology" then "Pharmacology"
  else if includes url "/properties" then "Properties"
  else if includes url "/autocomplete" then "Autocomplete"
  else if includes url "/pugview" then "Educational Annotations"
  else if includes url "/compound/name/" then "Name Search"
  else if includes url "/compound/cid/" then "CID Lookup"
  else if includes url "/compound/formula/" then "Formula Search"
  else if includes url "/compound/smiles/" then "SMILES Search"
  else if includes url ".PNG" then "Structure Image"
  else if includes url ".SDF" then "Structure File"
  else "Other API"

/-- Function `categorizeRequest(url)` from the fallback analytics in index.js:
a different check order, with a widened image-pattern group. -/
def fallbackCategorizeRequest (url : String) : String :=
  if includes url "/educational" then "Educational Overview"
  else if includes url "/autocomplete" then "Autocomplete"
  else if includes url "/compound/name/" then "Name Search"
  else if includes url "/compound/fastformula/" then "Formula Search"
  else if includes url "/pugview" then "Educational Annotations"
  else if includes url ".PNG" || includes url ".png" || includes url "PNG?" ||
          includes url "png?" || includes url "/PNG/" || includes url "/png/" then
    "Structure Image"
  else if includes url ".SDF" || includes url ".sdf" then "Structure File"
  else if includes url "/safety" then "Safety Data"
  else if includes url "/pharmacology" then "Pharmacology"
  else if includes url "/properties" then "Properties"
  else if includes url "/compound/cid/" then "CID Lookup"
  else if includes url "/compound/smiles/" then "SMILES Search"
  else "Other API"

/-- The pattern table of analytics-db.js `categorizeRequest`, in source order. -/
def categoryPatterns : List (String × String) :=
  [("/educational", "Educational Overview"),
   ("/safety", "Safety Data"),
   ("/pharmacology", "Pharmacology"),
   ("/properties", "Properties"),
   ("/autocomplete", "Autocomplete"),
   ("/pugview", "Educational Annotations"),
   ("/compound/name/", "Name Search"),
   ("/compound/cid/", "CID Lookup"),
   ("/compound/formula/", "Formula Search"),
   ("/compound/smiles/", "SMILES Search"),
   (".PNG", "Structure Image"),
   (".SDF", "Structure File")]

/-- Ordered first-match categorisation over a pattern table, defaulting to
`Other API` — the spec's description of the classifier. -/
def firstMatchCategory (pats : List (String × String)) (url : String) : String :=
  match pats with
  | [] => "Other API"
  | (p, c) :: rest => if includes url p then c else firstMatchCategory rest url

/-- The process environment fields read by the analytics system. -/
structure Env where
  HASH_SALT : Option String
  SUPABASE_URL : Option String
  SUPABASE_ANON_KEY : Option String
deriving DecidableEq

/-- JavaScript string coercion of a possibly-undefined value, as it happens in
`data + process.env.HASH_SALT` (an unset variable concatenates as "undefined"). -/
def envString : Option String → String
  | none => "undefined"
  | some s => s

/-- JavaScript truthiness of a possibly-undefined string. -/
def jsTruthyOpt : Option String → Bool
  | none => false
  | some s => !s.isEmpty

/-- JavaScript `s1 || s2` on strings: `s1` unless it is falsy (empty). -/
def jsOrElse (s fallbackStr : String) : String :=
  if s.isEmpty then fallbackStr else s

/-- The check `!!(process.env.SUPABASE_URL && process.env.SUPABASE_ANON_KEY)` — also the
condition under which analytics-db.js creates its Supabase client. -/
def supabaseConfigured (env : Env) : Bool :=
  jsTruthyOpt env.SUPABASE_URL && jsTruthyOpt env.SUPABASE_ANON_KEY

/-- Function `hashForPrivacy(data)` from analytics-db.js, parameterised by the external
`crypto` SHA-256 hex digest. Falsy input yields `null`; otherwise the digest of
`data + process.env.HASH_SALT || 'molexa-salt'` — which, by JavaScript
precedence, is `(data + String(HASH_SALT)) || 'molexa-salt'` — truncated to its
first 16 characters. -/
def hashForPrivacy (sha256hex : String → String) (env : Env) (data : Option String) :
    Option String :=
  match data with
  | none => none
  | some d =>
    if d.isEmpty then none
    else some (jsSubstringTo
      (sha256hex (jsOrElse (d ++ envString env.HASH_SALT) "molexa-salt")) 16)

/-- A JavaScript `Date`, kept only to the precision the analytics code reads:
`getFullYear()`, 0-based `getMonth()`, and the tail of the ISO-8601 rendering
after its `YYYY-MM` prefix. -/
structure JSDate where
  year : Nat
  month0 : Nat
  restIso : String
deriving DecidableEq

/-- JavaScript `s.padStart(2, '0')`. -/
def padStart2 (s : String) : String :=
  String.mk (List.replicate (2 - s.length) '0') ++ s

/-- Function `getCurrentMonth()` from analytics-db.js:
a `${year}-${String(month + 1).padStart(2, '0')}` bucket key. -/
def getCurrentMonth (d : JSDate) : String :=
  toString d.year ++ "-" ++ padStart2 (toString (d.month0 + 1))

/-- The rendering `new Date().toISOString()` for the same date. -/
def toISOString (d : JSDate) : String :=
  toString d.year ++ "-" ++ padStart2 (toString (d.month0 + 1)) ++ d.restIso

/-- One row of the `api_requests` table / one entry of the in-memory recent
buffer, exactly the fields built by `trackRequest` in analytics-db.js. -/
structure RequestData where
  timestamp : String
  method : String
  endpoint : String
  ip_hash : Option String
  user_agent_hash : Option String
  request_type : String
  response_status : Nat
  response_time_ms : Nat
  month_year : String
deriving DecidableEq

/-- The in-memory analytics cache of analytics-db.js (its `startTime` field is
only read for uptime display and is not modelled). -/
structure Cache where
  totalRequests : Nat
  recentRequests : List RequestData
  requestsByType : List (String × Nat)
  requestsByEndpoint : List (String × Nat)
deriving DecidableEq

/-- The mutable state of the `AnalyticsDB` singleton. -/
structure AnalyticsState where
  currentMonth : String
  cache : Cache
deriving DecidableEq

/-- The `AnalyticsDB` constructor before any database hydration: `currentMonth`
is fixed from the construction-time clock and the cache starts empty. -/
def AnalyticsState.init (startDate : JSDate) : AnalyticsState :=
  { currentMonth := getCurrentMonth startDate
    cache := { totalRequests := 0, recentRequests := [], requestsByType := [],
               requestsByEndpoint := [] } }

/-- The update `obj[key] = (obj[key] || 0) + 1` on a JavaScript object, modelled as an
insertion-ordered association list (new keys are appended). -/
def bump (m : List (String × Nat)) (k : String) : List (String × Nat) :=
  match m with
  | [] => [(k, 1)]
  | (k₀, v) :: rest => if k₀ = k then (k₀, v + 1) :: rest else (k₀, v) :: bump rest k

/-- Function `getEndpointCategory(url)` from analytics-db.js. -/
def getEndpointCategory (url : String) : String :=
  if includes url "/pubchem" then "PubChem API"
  else if includes url "/pugview" then "Educational Content"
  else if includes url "/autocomplete" then "Search Suggestions"
  else "Other"

/-- The inbound request fields read by `trackRequest`:
`req.originalUrl`, `req.method`, `req.ip` and the `User-Agent` header. -/
structure IncomingRequest where
  originalUrl : String
  method : String
  ip : Option String
  userAgent : Option String
deriving DecidableEq

/-- The `requestData` object assembled by `trackRequest` in analytics-db.js:
`timestamp` from the event-time clock, hashes in place of the raw IP and
user-agent, and `month_year` copied from `this.currentMonth`. -/
def mkRequestData (sha256hex : String → String) (env : Env) (currentMonth : String)
    (req : IncomingRequest) (now : JSDate) (statusCode responseTime : Nat) :
    RequestData :=
  { timestamp := toISOString now
    method := req.method
    endpoint := req.originalUrl
    ip_hash := hashForPrivacy sha256hex env req.ip
    user_agent_hash := hashForPrivacy sha256hex env req.userAgent
    request_type := categorizeRequest req.originalUrl
    response_status := statusCode
    response_time_ms := responseTime
    month_year := currentMonth }

/-- Function `trackRequest(req, res, responseTime)` from analytics-db.js, restricted to
its synchronous cache effect (the Supabase write is fire-and-forget and never
touches the cache): untrackable requests return the state unchanged; otherwise
the event is unshifted onto `recentRequests`, the buffer sliced to 50, and the
counters bumped. -/
def trackRequest (sha256hex : String → String) (env : Env) (st : AnalyticsState)
    (req : IncomingRequest) (now : JSDate) (statusCode responseTime : Nat) :
    AnalyticsState :=
  if shouldTrackRequest req.originalUrl req.method = false then st
  else
    let rd := mkRequestData sha256hex env st.currentMonth req now statusCode responseTime
    let unshifted := rd :: st.cache.recentRequests
    { currentMonth := st.currentMonth
      cache :=
      { totalRequests := st.cache.totalRequests + 1
        recentRequests := if unshifted.length > 50 then unshifted.take 50 else unshifted
        requestsByType := bump st.cache.requestsByType rd.request_type
        requestsByEndpoint := bump st.cache.requestsByEndpoint
          (getEndpointCategory rd.endpoint) } }

/-- Function `getRecentRequests(limit)` from analytics-db.js. -/
def getRecentRequests (st : AnalyticsState) (limit : Nat) : List RequestData :=
  st.cache.recentRequests.take limit

/-- One call to `trackRequest`: the request together with the clock reading and
response metadata observed at that call. -/
structure Arrival where
  req : IncomingRequest
  now : JSDate
  statusCode : Nat
  responseTime : Nat
deriving DecidableEq

/-- Folding a sequence of `trackRequest` calls over the analytics state. -/
def runTrack (sha256hex : String → String) (env : Env) (st : AnalyticsState)
    (arrivals : List Arrival) : AnalyticsState :=
  arrivals.foldl (fun s a => trackRequest sha256hex env s a.req a.now a.statusCode
    a.responseTime) st

/-- One row of the `monthly_summaries` table. -/
structure SummaryRow where
  month_year : String
  total_requests : Nat
  requests_by_type : List (String × Nat)
  requests_by_endpoint : List (String × Nat)
  average_response_time : Nat
  archived_at : Option String
deriving DecidableEq

/-- The durable backend's state: the two tables read and written by
analytics-db.js. -/
structure DBState where
  api_requests : List RequestData
  monthly_summaries : List SummaryRow
deriving DecidableEq

/-- The `archiveData` object written to the archive file by `archiveMonth`. -/
structure ArchiveData where
  month_year : String
  summary : SummaryRow
  requests : List RequestData
  archived_at : String
  total_requests : Nat
deriving DecidableEq

/-- The failure `archiveMonth` can propagate (a thrown Supabase error from the
`.single()` summary fetch when the summary row is absent or duplicated; query
transport failures are not modelled). -/
inductive ArchiveError where
  | summaryNotFound
deriving DecidableEq

/-- Supabase `.select().eq('month_year', m).single()`: succeeds exactly when
one matching row exists. -/
def findSingle (rows : List SummaryRow) (m : String) : Option SummaryRow :=
  match rows.filter (fun r => r.month_year = m) with
  | [r] => some r
  | _ => none

/-- Insertion step for the timestamp-ascending ordering the archive query
requests from the database. -/
def insertByTs (r : RequestData) : List RequestData → List RequestData
  | [] => [r]
  | x :: xs => if r.timestamp ≤ x.timestamp then r :: x :: xs else x :: insertByTs r xs

/-- The ordering clause of the archive query, timestamp ascending. -/
def sortByTs (rs : List RequestData) : List RequestData :=
  rs.foldr insertByTs []

/-- The per-row effect of `update({ archived_at }).eq('month_year', monthYear)`
on the `monthly_summaries` table. -/
def stampArchived (monthYear now : String) (r : SummaryRow) : SummaryRow :=
  if r.month_year = monthYear then { r with archived_at := some now } else r

/-- Function `archiveMonth(monthYear)` from analytics-db.js. With no Supabase client it
logs a skip message and resolves with `undefined` (here `Except.ok none`).
Otherwise it reads the month's events (timestamp ascending) and its summary row
(`.single()`, whose error is thrown), builds the archive object, writes it to
`molexa-analytics-<monthYear>.json`, and stamps the summary row's
`archived_at`; the resolved value is the filename, paired here with the archive
object and the updated database state. Both `new Date()` readings inside the
call are represented by the single clock value `now`. -/
def archiveMonth (db : Option DBState) (monthYear : String) (now : String) :
    Except ArchiveError (Option (String × ArchiveData × DBState)) :=
  match db with
  | none => Except.ok none
  | some s =>
    let requests := sortByTs (s.api_requests.filter (fun r => r.month_year = monthYear))
    match findSingle s.monthly_summaries monthYear with
    | none => Except.error ArchiveError.summaryNotFound
    | some summary =>
      let archiveData : ArchiveData :=
        { month_year := monthYear
          summary := summary
          requests := requests
          archived_at := now
          total_requests := requests.length }
      let filename := "molexa-analytics-" ++ monthYear ++ ".json"
      let updated : DBState :=
        { api_requests := s.api_requests
          monthly_summaries := s.monthly_summaries.map (stampArchived monthYear now) }
      Except.ok (some (filename, archiveData, updated))

/-- The JSON body assembled by the `GET /api/analytics` handler in index.js,
restricted to the fields the spec's degraded-mode contract is about. -/
structure AnalyticsResponse where
  totalRequests : Nat
  recentRequestsCount : Nat
  recentRequests : List RequestData
  database_connected : Bool
  tracking_mode : String
deriving DecidableEq

/-- Handler of `GET /api/analytics` (index.js): summary fields from the cache, the 20 most
recent events, and `database_connected` recomputed from the environment. -/
def apiAnalyticsResponse (env : Env) (st : AnalyticsState) : AnalyticsResponse :=
  { totalRequests := st.cache.totalRequests
    recentRequestsCount := st.cache.recentRequests.length
    recentRequests := getRecentRequests st 20
    database_connected := supabaseConfigured env
    tracking_mode := "selective" }

/-! ## Concrete instances used by the witnesses -/

/-- A stand-in for the external SHA-256 hex digest: a constant 64-hex-character
output, enough to instantiate theorems that only assume the digest length. -/
def shaW : String → String :=
  fun _ => "0123456789abcdef0123456789abcdef0123456789abcdef0123456789abcdef"

/-- An environment with no Supabase configuration and no hash salt. -/
def envW : Env :=
  { HASH_SALT := none, SUPABASE_URL := none, SUPABASE_ANON_KEY := none }

/-- A trackable inbound request. -/
def reqW : IncomingRequest :=
  { originalUrl := "/api/pubchem/compound/cid/2244/JSON", method := "GET",
    ip := none, userAgent := none }

/-- One `trackRequest` call for `reqW` in January 2025. -/
def arrW : Arrival :=
  { req := reqW, now := ⟨2025, 0, "-15T10:00:00.000Z"⟩,
    statusCode := 200, responseTime := 12 }

/-- An analytics state constructed in January 2025 with an empty cache. -/
def stJanW : AnalyticsState :=
  AnalyticsState.init ⟨2025, 0, "-01T00:00:00.000Z"⟩

/-- A clock reading in February 2025, after the January state was built. -/
def nowFebW : JSDate := ⟨2025, 1, "-03T08:00:00.000Z"⟩

/-- One stored January 2025 event row. -/
def rdW : RequestData :=
  { timestamp := "2025-01-15T10:00:00.000Z", method := "GET",
    endpoint := "/api/pubchem/compound/cid/2244/JSON", ip_hash := none,
    user_agent_hash := none, request_type := "CID Lookup",
    response_status := 200, response_time_ms := 12, month_year := "2025-01" }

/-- The live (not yet archived) January 2025 summary row. -/
def sumW : SummaryRow :=
  { month_year := "2025-01", total_requests := 1,
    requests_by_type := [("CID Lookup", 1)],
    requests_by_endpoint := [("PubChem API", 1)],
    average_response_time := 12, archived_at := none }

/-- A database holding one January 2025 event and its summary row. -/
def s0W : DBState := { api_requests := [rdW], monthly_summaries := [sumW] }

/-- The archive object produced by the first `archiveMonth` run at clock "t1". -/
def a1W : ArchiveData :=
  { month_year := "2025-01", summary := sumW, requests := [rdW],
    archived_at := "t1", total_requests := 1 }

/-- The database state after the first `archiveMonth` run: the summary row now
carries `archived_at = "t1"`. -/
def s1W : DBState :=
  { api_requests := [rdW],
    monthly_summaries := [{ sumW with archived_at := some "t1" }] }

/-- The archive object produced by the second `archiveMonth` run at clock
"t2": its embedded summary snapshot carries the first run's stamp. -/
def a2W : ArchiveData :=
  { month_year := "2025-01", summary := { sumW with archived_at := some "t1" },
    requests := [rdW], archived_at := "t2", total_requests := 1 }

/-- The database state after the second `archiveMonth` run. -/
def s2W : DBState :=
  { api_requests := [rdW],
    monthly_summaries := [{ sumW with archived_at := some "t2" }] }

/-! ## Classifier theorems -/

/-- C2: exclude-list precedence — every URL containing one of the exclude
patterns is not trackable, whatever the method and whether or not an allow-list
prefix also occurs in it; in particular `GET /api/docs` is not trackable. -/
theorem exclude_list_precedence :
    (∀ url method, (∃ p ∈ excludePatterns, includes url p = true) →
      shouldTrackRequest url method = false) ∧
    shouldTrackRequest "/api/docs" "GET" = false := by
  refine ⟨fun url method hp => ?_, by decide⟩
  rcases hp with ⟨p, hpmem, hpinc⟩
  have hany : excludePatterns.any (fun pattern => includes url pattern) = true :=
    List.any_eq_true.mpr ⟨p, hpmem, hpinc⟩
  simp only [shouldTrackRequest, hany, if_true]

/-- Witness for C2 at a URL that carries both an allow-list prefix
(`/api/pubchem/`) and an exclude pattern (`/api/analytics`). -/
theorem exclude_list_precedence_witness :
    shouldTrackRequest "/api/pubchem/x/api/analytics" "GET" = false :=
  exclude_list_precedence.1 "/api/pubchem/x/api/analytics" "GET"
    ⟨"/api/analytics", by decide, by decide⟩

/-- C3 counterexample: the first spec example path contains `/compound/cid/`,
which `categorizeRequest` checks before the `.PNG` suffix (and the path has no
literal `.PNG`), so its category is not `Structure Image`. -/
theorem png_example_not_structure_image :
    categorizeRequest "/api/pubchem/compound/cid/2244/PNG" ≠ "Structure Image" := by
  decide

/-- C3 amended: the actual categories of the two spec example paths —
`CID Lookup` (not `Structure Image`) and `Safety Data` in the analytics-db.js
classifier; the index.js fallback classifier agrees on the first but returns
`Educational Annotations` on the second, its `/pugview` check coming before
`/safety`. -/
theorem spec_example_categories :
    categorizeRequest "/api/pubchem/compound/cid/2244/PNG" = "CID Lookup" ∧
    categorizeRequest "/api/pugview/compound/2244/safety?heading=Toxicity" =
      "Safety Data" ∧
    fallbackCategorizeRequest "/api/pubchem/compound/cid/2244/PNG" = "CID Lookup" ∧
    fallbackCategorizeRequest "/api/pugview/compound/2244/safety?heading=Toxicity" =
      "Educational Annotations" := by
  decide

/-- C4 counterexample: the image/structure-file suffix checks are
case-sensitive (`.PNG`/`.SDF` only) and `compound/fastformula/` is matched by
no pattern, so a lowercase `.png` path and a fastformula path both fall through
to `Other API` instead of `Structure Image` / `Formula Search`. -/
theorem categorize_not_case_insensitive :
    categorizeRequest "/api/files/mol.png" = "Other API" ∧
    categorizeRequest "/api/files/mol.png" ≠ "Structure Image" ∧
    categorizeRequest "/api/pubchem/compound/fastformula/C6H6/cids/JSON" =
      "Other API" ∧
    categorizeRequest "/api/pubchem/compound/fastformula/C6H6/cids/JSON" ≠
      "Formula Search" := by
  decide

/-- C4 amended: `categorizeRequest` is exactly ordered first-match over its
source-order pattern table — educational, safety, pharmacology, properties,
autocomplete, pugview, `compound/name/`, `compound/cid/`, `compound/formula/`
(fastformula is not matched), `compound/smiles/`, then the case-sensitive
`.PNG` and `.SDF` suffixes — with every unmatched path classified `Other API`,
and it is total (always returns a value). -/
theorem categorize_first_match (url : String) :
    categorizeRequest url = firstMatchCategory categoryPatterns url := rfl

/-- C8 counterexample: with no durable backend configured, `archiveMonth`
resolves successfully with `undefined` — it does not fail with a
`NotConfigured` error. -/
theorem archive_unconfigured_not_error :
    archiveMonth none "2025-01" "2025-02-01T00:00:00.000Z" = Except.ok none := rfl

/-- C8 amended: with no durable backend configured, `archiveMonth` logs a skip
message and returns without archiving, resolving with `undefined` for every
month and clock value — it neither throws nor reports the missing
configuration to its caller. -/
theorem archive_unconfigured_skips (monthYear now : String) :
    archiveMonth none monthYear now = Except.ok none := rfl

/-- C10: the trackability decision ignores the HTTP method — both the
analytics-db.js classifier and the index.js fallback classifier return the
same verdict for a URL under any two methods. -/
theorem trackability_method_independent :
    ∀ url m₁ m₂, shouldTrackRequest url m₁ = shouldTrackRequest url m₂ ∧
      fallbackShouldTrackRequest url m₁ = fallbackShouldTrackRequest url m₂ :=
  fun _ _ _ => ⟨rfl, rfl⟩

/-! ## Event store lemmas -/

theorem take_append_take {α : Type} (l m : List α) (n : Nat) :
    (l ++ m.take n).take n = (l ++ m).take n := by
  rw [List.take_append_eq_append_take, List.take_append_eq_append_take,
    List.take_take, Nat.min_eq_left (Nat.sub_le n l.length)]

theorem trackRequest_of_untrackable (sha256hex : String → String) (env : Env)
    (st : AnalyticsState) (req : IncomingRequest) (now : JSDate)
    (statusCode responseTime : Nat)
    (h : shouldTrackRequest req.originalUrl req.method = false) :
    trackRequest sha256hex env st req now statusCode responseTime = st := by
  simp [trackRequest, h]

theorem trackRequest_of_trackable (sha256hex : String → String) (env : Env)
    (st : AnalyticsState) (req : IncomingRequest) (now : JSDate)
    (statusCode responseTime : Nat)
    (h : shouldTrackRequest req.originalUrl req.method = true) :
    trackRequest sha256hex env st req now statusCode responseTime =
      { currentMonth := st.currentMonth
        cache :=
        { totalRequests := st.cache.totalRequests + 1
          recentRequests :=
            ((mkRequestData sha256hex env st.currentMonth req now statusCode
              responseTime) :: st.cache.recentRequests).take 50
          requestsByType := bump st.cache.requestsByType
            (mkRequestData sha256hex env st.currentMonth req now statusCode
              responseTime).request_type
          requestsByEndpoint := bump st.cache.requestsByEndpoint
            (getEndpointCategory (mkRequestData sha256hex env st.currentMonth req now
              statusCode responseTime).endpoint) } } := by
  simp only [trackRequest, h, Bool.true_eq_false, if_false]
  by_cases hlen :
      ((mkRequestData sha256hex env st.currentMonth req now statusCode responseTime) ::
        st.cache.recentRequests).length > 50
  · simp [hlen]
  · simp [hlen, List.take_of_length_le (Nat.le_of_not_lt hlen)]

theorem runTrack_recent (sha256hex : String → String) (env : Env) :
    ∀ (arrivals : List Arrival) (st : AnalyticsState),
      st.cache.recentRequests.length ≤ 50 →
      (∀ a ∈ arrivals, shouldTrackRequest a.req.originalUrl a.req.method = true) →
      (runTrack sha256hex env st arrivals).cache.recentRequests =
        ((arrivals.map (fun a => mkRequestData sha256hex env st.currentMonth a.req
          a.now a.statusCode a.responseTime)).reverse ++
            st.cache.recentRequests).take 50 ∧
      (runTrack sha256hex env st arrivals).currentMonth = st.currentMonth := by
  intro arrivals
  induction arrivals with
  | nil =>
    intro st h0 _
    exact ⟨by simp [runTrack, List.take_of_length_le h0], rfl⟩
  | cons a as ih =>
    intro st h0 hall
    have ha : shouldTrackRequest a.req.originalUrl a.req.method = true :=
      hall a (List.mem_cons_self a as)
    have hstep := trackRequest_of_trackable sha256hex env st a.req a.now a.statusCode
      a.responseTime ha
    have hrun : runTrack sha256hex env st (a :: as) =
        runTrack sha256hex env
          (trackRequest sha256hex env st a.req a.now a.statusCode a.responseTime) as :=
      rfl
    have hlen₁ : (trackRequest sha256hex env st a.req a.now a.statusCode
        a.responseTime).cache.recentRequests.length ≤ 50 := by
      rw [hstep]
      simp [List.length_take]
    obtain ⟨hrec, hmon⟩ := ih (trackRequest sha256hex env st a.req a.now a.statusCode
      a.responseTime) hlen₁ (fun x hx => hall x (List.mem_cons_of_mem a hx))
    have hmon₁ : (trackRequest sha256hex env st a.req a.now a.statusCode
        a.responseTime).currentMonth = st.currentMonth := by rw [hstep]
    refine ⟨?_, by rw [hrun, hmon, hmon₁]⟩
    rw [hrun, hrec, hmon₁, hstep]
    rw [take_append_take, List.map_cons, List.reverse_cons, List.append_assoc,
      List.singleton_append]

theorem runTrack_length_le (sha256hex : String → String) (env : Env) :
    ∀ (arrivals : List Arrival) (st : AnalyticsState),
      st.cache.recentRequests.length ≤ 50 →
      (runTrack sha256hex env st arrivals).cache.recentRequests.length ≤ 50 := by
  intro arrivals
  induction arrivals with
  | nil => intro st h0; exact h0
  | cons a as ih =>
    intro st h0
    have hrun : runTrack sha256hex env st (a :: as) =
        runTrack sha256hex env
          (trackRequest sha256hex env st a.req a.now a.statusCode a.responseTime) as :=
      rfl
    rw [hrun]
    apply ih
    cases htr : shouldTrackRequest a.req.originalUrl a.req.method with
    | false =>
      rw [trackRequest_of_untrackable sha256hex env st a.req a.now a.statusCode
        a.responseTime htr]
      exact h0
    | true =>
      rw [trackRequest_of_trackable sha256hex env st a.req a.now a.statusCode
        a.responseTime htr]
      simp [List.length_take]

/-- C1: capacity invariant of the in-memory event store — starting from any
state whose buffer respects the 50-entry cap, after `50 + k` trackable
`trackRequest` calls (`k > 0`) the buffer holds exactly 50 events, its length
never exceeds 50 at any intermediate point, and `getRecentRequests 50` returns
exactly the 50 most recently inserted events, newest first. -/
theorem event_store_capacity (sha256hex : String → String) (env : Env)
    (st : AnalyticsState) (arrivals : List Arrival) (k : Nat)
    (h0 : st.cache.recentRequests.length ≤ 50)
    (hk : 0 < k)
    (hn : arrivals.length = 50 + k)
    (htrack : ∀ a ∈ arrivals, shouldTrackRequest a.req.originalUrl a.req.method = true) :
    (runTrack sha256hex env st arrivals).cache.recentRequests.length = 50 ∧
    (∀ pre suf, arrivals = pre ++ suf →
      (runTrack sha256hex env st pre).cache.recentRequests.length ≤ 50) ∧
    getRecentRequests (runTrack sha256hex env st arrivals) 50 =
      ((arrivals.map (fun a => mkRequestData sha256hex env st.currentMonth a.req a.now
        a.statusCode a.responseTime)).reverse).take 50 := by
  obtain ⟨hrec, -⟩ := runTrack_recent sha256hex env arrivals st h0 htrack
  have hrevlen :
      ((arrivals.map (fun a => mkRequestData sha256hex env st.currentMonth a.req a.now
        a.statusCode a.responseTime)).reverse).length = 50 + k := by
    rw [List.length_reverse, List.length_map, hn]
  refine ⟨?_, fun pre suf _ => runTrack_length_le sha256hex env pre st h0, ?_⟩
  · rw [hrec, List.length_take, List.length_append, hrevlen]
    omega
  · rw [getRecentRequests, hrec, List.take_take, Nat.min_self,
      List.take_append_eq_append_take, hrevlen]
    have hz : 50 - (50 + k) = 0 := by omega
    rw [hz, List.take_zero, List.append_nil]

/-- Witness for C1: from the empty January state, 51 identical trackable calls
leave exactly 50 events in the buffer. -/
theorem event_store_capacity_witness :
    (runTrack shaW envW stJanW (List.replicate 51 arrW)).cache.recentRequests.length =
      50 :=
  (event_store_capacity shaW envW stJanW (List.replicate 51 arrW) 1 (by decide)
    (by decide) (by decide) (by decide)).1

/-! ## Privacy and period theorems -/

/-- C5: privacy invariant of tracked events. A falsy (missing or empty) IP or
user-agent hashes to `null`; a present value is stored as the 16-character
truncation of the SHA-256 hex digest of the raw value concatenated with the
salt (the `HASH_SALT` variable, or the string "undefined" when it is unset,
JavaScript precedence making the intended `'molexa-salt'` fallback
unreachable); the persisted record's IP and user-agent fields are exactly
those hashes; and the record depends on the raw IP and user-agent only through
their hashes — two requests with equal hashes (and equal URL and method)
produce identical records, so no raw value can be recovered from, or is
present in, the stored fields. -/
theorem privacy_hashing (sha256hex : String → String)
    (hsha : ∀ s, (sha256hex s).length = 64) (env : Env) :
    hashForPrivacy sha256hex env none = none ∧
    (∀ d, d.isEmpty = false →
      hashForPrivacy sha256hex env (some d) =
        some (jsSubstringTo
          (sha256hex (jsOrElse (d ++ envString env.HASH_SALT) "molexa-salt")) 16) ∧
      ∀ h, hashForPrivacy sha256hex env (some d) = some h → h.length = 16) ∧
    (∀ currentMonth req now statusCode responseTime,
      (mkRequestData sha256hex env currentMonth req now statusCode
        responseTime).ip_hash = hashForPrivacy sha256hex env req.ip ∧
      (mkRequestData sha256hex env currentMonth req now statusCode
        responseTime).user_agent_hash = hashForPrivacy sha256hex env req.userAgent) ∧
    (∀ currentMonth req req₂ now statusCode responseTime,
      req₂.originalUrl = req.originalUrl → req₂.method = req.method →
      hashForPrivacy sha256hex env req₂.ip = hashForPrivacy sha256hex env req.ip →
      hashForPrivacy sha256hex env req₂.userAgent =
        hashForPrivacy sha256hex env req.userAgent →
      mkRequestData sha256hex env currentMonth req₂ now statusCode responseTime =
        mkRequestData sha256hex env currentMonth req now statusCode responseTime) := by
  refine ⟨rfl, fun d hd => ⟨by simp [hashForPrivacy, hd], fun h hh => ?_⟩,
    fun _ _ _ _ _ => ⟨rfl, rfl⟩, fun cm req req₂ now sc rt h1 h2 h3 h4 => ?_⟩
  · simp only [hashForPrivacy, hd, Bool.false_eq_true, if_false,
      Option.some.injEq] at hh
    have h64 :
        (sha256hex (jsOrElse (d ++ envString env.HASH_SALT) "molexa-salt")).data.length =
          64 := hsha _
    rw [← hh]
    show (List.take 16
      (sha256hex (jsOrElse (d ++ envString env.HASH_SALT) "molexa-salt")).data).length =
        16
    rw [List.length_take, h64]
    decide
  · simp [mkRequestData, h1, h2, h3, h4]

/-- Witness for C5: with the concrete 64-hex digest stand-in, a missing IP
hashes to `null` and a present IP hashes to a 16-character value. -/
theorem privacy_hashing_witness :
    hashForPrivacy shaW envW none = none ∧
    ∀ h, hashForPrivacy shaW envW (some "10.0.0.1") = some h → h.length = 16 :=
  ⟨(privacy_hashing shaW (fun _ => rfl) envW).1,
   ((privacy_hashing shaW (fun _ => rfl) envW).2.1 "10.0.0.1" rfl).2⟩

/-- C6 counterexample: an `AnalyticsDB` constructed in January 2025 that
tracks a request in February 2025 creates an event whose own timestamp lies in
`2025-02` but whose `month_year` is `2025-01` — the period key is not derived
from the event's creation timestamp. -/
theorem month_rollover_counterexample :
    (getRecentRequests (trackRequest shaW envW stJanW reqW nowFebW 200 12) 1).map
        (fun e => (e.month_year, jsSubstringTo e.timestamp 7)) =
      [("2025-01", "2025-02")] ∧
    ("2025-01" : String) ≠ "2025-02" := by
  decide

/-- C6 amended: every tracked event's `month_year` is `this.currentMonth`, the
`YYYY-MM` key computed from the clock when the `AnalyticsDB` was constructed
and never refreshed — the event's own timestamp is recorded separately and the
two agree only while the calendar month of construction is still current. -/
theorem event_period_from_construction (sha256hex : String → String) (env : Env)
    (st : AnalyticsState) (req : IncomingRequest) (now : JSDate)
    (statusCode responseTime : Nat)
    (h : shouldTrackRequest req.originalUrl req.method = true) :
    (trackRequest sha256hex env st req now statusCode
        responseTime).cache.recentRequests.head? =
      some (mkRequestData sha256hex env st.currentMonth req now statusCode
        responseTime) ∧
    (mkRequestData sha256hex env st.currentMonth req now statusCode
      responseTime).month_year = st.currentMonth ∧
    (mkRequestData sha256hex env st.currentMonth req now statusCode
      responseTime).timestamp = toISOString now := by
  refine ⟨?_, rfl, rfl⟩
  rw [trackRequest_of_trackable sha256hex env st req now statusCode responseTime h]
  show ((mkRequestData sha256hex env st.currentMonth req now statusCode responseTime ::
    st.cache.recentRequests).take (49 + 1)).head? = _
  rw [List.take_succ_cons]
  rfl

/-- Witness for C6 amended: the February event tracked into the January state
carries the construction month `2025-01`. -/
theorem event_period_from_construction_witness :
    (trackRequest shaW envW stJanW reqW nowFebW 200 12).cache.recentRequests.head? =
      some (mkRequestData shaW envW stJanW.currentMonth reqW nowFebW 200 12) :=
  (event_period_from_construction shaW envW stJanW reqW nowFebW 200 12 (by decide)).1

/-- C9: degraded (memory-only) mode — when Supabase is unconfigured the
`GET /api/analytics` body reports `database_connected = false`, while
`trackRequest` (a total function in this model, hence never throwing) still
increments the counter and makes the event observable through
`getRecentRequests`, and its cache effect is identical to what it would be
under any database configuration. -/
theorem degraded_memory_only_mode (sha256hex : String → String) (env : Env)
    (hconf : supabaseConfigured env = false) :
    (∀ st, (apiAnalyticsResponse env st).database_connected = false) ∧
    (∀ st req now statusCode responseTime,
      shouldTrackRequest req.originalUrl req.method = true →
      (trackRequest sha256hex env st req now statusCode
        responseTime).cache.totalRequests = st.cache.totalRequests + 1 ∧
      getRecentRequests (trackRequest sha256hex env st req now statusCode
          responseTime) 1 =
        [mkRequestData sha256hex env st.currentMonth req now statusCode
          responseTime]) ∧
    (∀ st req now statusCode responseTime u k,
      trackRequest sha256hex env st req now statusCode responseTime =
        trackRequest sha256hex
          { env with SUPABASE_URL := u, SUPABASE_ANON_KEY := k }
          st req now statusCode responseTime) := by
  refine ⟨fun st => ?_, fun st req now sc rt htr => ?_, fun _ _ _ _ _ _ _ => rfl⟩
  · simp [apiAnalyticsResponse, hconf]
  · rw [trackRequest_of_trackable sha256hex env st req now sc rt htr]
    refine ⟨rfl, ?_⟩
    show ((mkRequestData sha256hex env st.currentMonth req now sc rt ::
      st.cache.recentRequests).take 50).take 1 = _
    rw [List.take_take]
    show (mkRequestData sha256hex env st.currentMonth req now sc rt ::
      st.cache.recentRequests).take (0 + 1) = _
    rw [List.take_succ_cons, List.take_zero]

/-- Witness for C9 at the unconfigured environment and the January state. -/
theorem degraded_memory_only_mode_witness :
    (apiAnalyticsResponse envW stJanW).database_connected = false :=
  (degraded_memory_only_mode shaW envW (by decide)).1 stJanW

/-! ## Archival theorems -/

theorem findSingle_eq_some {rows : List SummaryRow} {m : String} {r : SummaryRow}
    (h : findSingle rows m = some r) :
    rows.filter (fun row => row.month_year = m) = [r] := by
  unfold findSingle at h
  cases hf : rows.filter (fun row => row.month_year = m) with
  | nil => rw [hf] at h; simp at h
  | cons a as =>
    cases as with
    | nil =>
      rw [hf] at h
      simp only [Option.some.injEq] at h
      rw [h]
    | cons b bs => rw [hf] at h; simp at h

theorem stampArchived_month_year (monthYear now : String) (r : SummaryRow) :
    (stampArchived monthYear now r).month_year = r.month_year := by
  unfold stampArchived
  by_cases h : r.month_year = monthYear <;> simp [h]

theorem filter_stamp (rows : List SummaryRow) (m now : String) :
    (rows.map (stampArchived m now)).filter (fun r => r.month_year = m) =
      (rows.filter (fun r => r.month_year = m)).map (stampArchived m now) := by
  rw [List.filter_map]
  congr 1
  exact List.filter_congr (fun x _ => by
    simp [Function.comp, stampArchived_month_year])

/-- C7 amended: a second `archiveMonth` for the same period, with no new
events in between, does not throw, writes the same file name, and produces an
archive whose event list, period key and total are identical to the first
run's; the embedded summary snapshot is identical except its `archived_at`
field, which the first run stamped with its own clock value. -/
theorem archive_idempotent_up_to_stamp (s₀ : DBState) (m t₁ t₂ f₁ : String)
    (a₁ : ArchiveData) (s₁ : DBState)
    (h : archiveMonth (some s₀) m t₁ = Except.ok (some (f₁, a₁, s₁))) :
    ∃ a₂ s₂, archiveMonth (some s₁) m t₂ = Except.ok (some (f₁, a₂, s₂)) ∧
      a₂.requests = a₁.requests ∧
      a₂.summary = { a₁.summary with archived_at := some t₁ } ∧
      a₂.month_year = a₁.month_year ∧
      a₂.total_requests = a₁.total_requests := by
  cases hfs : findSingle s₀.monthly_summaries m with
  | none =>
    rw [archiveMonth, hfs] at h
    simp at h
  | some sum =>
    have hfilter := findSingle_eq_some hfs
    have hsum_m : sum.month_year = m := by
      have hmem : sum ∈ s₀.monthly_summaries.filter (fun row => row.month_year = m) := by
        rw [hfilter]; exact List.mem_singleton_self sum
      exact of_decide_eq_true (List.mem_filter.mp hmem).2
    have hcomp : archiveMonth (some s₀) m t₁ = Except.ok (some
        ("molexa-analytics-" ++ m ++ ".json",
         { month_year := m, summary := sum,
           requests := sortByTs (s₀.api_requests.filter (fun r => r.month_year = m)),
           archived_at := t₁,
           total_requests :=
             (sortByTs (s₀.api_requests.filter (fun r => r.month_year = m))).length },
         { api_requests := s₀.api_requests,
           monthly_summaries := s₀.monthly_summaries.map (stampArchived m t₁) })) := by
      rw [archiveMonth, hfs]
    rw [hcomp] at h
    simp only [Except.ok.injEq, Option.some.injEq, Prod.mk.injEq] at h
    obtain ⟨hf, ha, hs⟩ := h
    have hfs₂ : findSingle s₁.monthly_summaries m =
        some { sum with archived_at := some t₁ } := by
      rw [← hs]
      show findSingle (s₀.monthly_summaries.map (stampArchived m t₁)) m = _
      unfold findSingle
      rw [filter_stamp, hfilter]
      simp [stampArchived, hsum_m]
    refine ⟨{ month_year := m, summary := { sum with archived_at := some t₁ },
              requests := sortByTs (s₁.api_requests.filter (fun r => r.month_year = m)),
              archived_at := t₂,
              total_requests :=
                (sortByTs (s₁.api_requests.filter (fun r => r.month_year = m))).length },
            { api_requests := s₁.api_requests,
              monthly_summaries := s₁.monthly_summaries.map (stampArchived m t₂) },
            ?_, ?_, ?_, ?_, ?_⟩
    · rw [archiveMonth, hfs₂, ← hf]
    · rw [← ha, ← hs]
    · rw [← ha]
    · rw [← ha]
    · rw [← ha, ← hs]

/-- Witness for C7 amended: the two concrete archive runs over the
one-event January 2025 database. -/
theorem archive_idempotent_witness :
    ∃ a₂ s₂, archiveMonth (some s1W) "2025-01" "t2" =
        Except.ok (some ("molexa-analytics-2025-01.json", a₂, s₂)) ∧
      a₂.requests = a1W.requests ∧
      a₂.summary = { a1W.summary with archived_at := some "t1" } ∧
      a₂.month_year = a1W.month_year ∧
      a₂.total_requests = a1W.total_requests :=
  archive_idempotent_up_to_stamp s0W "2025-01" "t1" "t2"
    "molexa-analytics-2025-01.json" a1W s1W rfl

/-- C7 counterexample: running `archiveMonth` twice in succession on the same
January 2025 data yields archive objects with identical event lists but
different summary snapshots — the first run's `archived_at` stamp makes the
second run's embedded summary differ, so the two Archive Records are not
identical. -/
theorem archive_rewrites_summary_stamp :
    archiveMonth (some s0W) "2025-01" "t1" =
      Except.ok (some ("molexa-analytics-2025-01.json", a1W, s1W)) ∧
    archiveMonth (some s1W) "2025-01" "t2" =
      Except.ok (some ("molexa-analytics-2025-01.json", a2W, s2W)) ∧
    a2W.requests = a1W.requests ∧
    a2W.summary ≠ a1W.summary := by
  refine ⟨rfl, rfl, rfl, ?_⟩
  decide

end Molexa
